import Mathlib

/-!
# Verification of the poetry-export invalidation cache

This file embeds, in Lean 4, the lock-hash-based export-skip cache of
`bin/pywf_open_source/define_05_deps.py` (class `PyWfDeps`): the methods
`_do_we_need_poetry_export`, `_poetry_export_main`, `_poetry_export_group`,
`_poetry_export_logic` and `_poetry_export`.

Modelling conventions:

* Bytes are natural numbers `< 256`; byte strings are `List Nat`.
* The filesystem slice touched by the component is an explicit record `FS`;
  a `World` adds a log of the subprocess invocations that were executed.
* Python exception semantics (an exception propagates, but side effects that
  already happened persist) is modelled by `PyResult`, which carries the
  final `World` both on normal return and on raise.
* The external `poetry export` subprocess is an oracle `ExportEnv`: for each
  command it says whether the process exits with status 0 and, if so, what it
  writes to its `--output` file.  A command invoked with `check=True` raises
  `subprocess.CalledProcessError` on non-zero exit.  The model assumes the
  external command writes only its own output artifact (spec section 6).
-/

set_option maxRecDepth 100000

namespace PyWfDeps

/-! ## SHA-256

Modelled from the spec: the helper `sha256_of_bytes` (module
`bin/pywf_open_source/helpers.py`) is not among the provided source files;
the spec describes it as computing "a cryptographic digest (SHA-256 hex) of
the last-processed input's bytes" ("Computes `currentHash = SHA256(inputBytes)`",
"<64-character lowercase hex SHA-256 digest>").  We therefore implement the
full FIPS 180-4 SHA-256 algorithm over byte lists, producing the lowercase
hex digest, exactly as `hashlib.sha256(b).hexdigest()` does.  All word
arithmetic is `Nat` arithmetic reduced modulo `2 ^ 32`.
-/

/-- The word modulus of SHA-256, `2 ^ 32`. -/
def M32 : Nat := 4294967296

/-- Right rotation of a 32-bit word (represented as `Nat < 2 ^ 32`). -/
def rotr (n x : Nat) : Nat := (x >>> n) ||| ((x <<< (32 - n)) % M32)

/-- Bitwise complement on 32-bit words. -/
def lnot32 (x : Nat) : Nat := x ^^^ (M32 - 1)

/-- Big sigma-0 of FIPS 180-4. -/
def bsig0 (x : Nat) : Nat := rotr 2 x ^^^ rotr 13 x ^^^ rotr 22 x

/-- Big sigma-1 of FIPS 180-4. -/
def bsig1 (x : Nat) : Nat := rotr 6 x ^^^ rotr 11 x ^^^ rotr 25 x

/-- Small sigma-0 of FIPS 180-4. -/
def ssig0 (x : Nat) : Nat := rotr 7 x ^^^ rotr 18 x ^^^ (x >>> 3)

/-- Small sigma-1 of FIPS 180-4. -/
def ssig1 (x : Nat) : Nat := rotr 17 x ^^^ rotr 19 x ^^^ (x >>> 10)

/-- The choice function of SHA-256. -/
def ch (x y z : Nat) : Nat := (x &&& y) ^^^ (lnot32 x &&& z)

/-- The majority function of SHA-256. -/
def maj (x y z : Nat) : Nat := (x &&& y) ^^^ (x &&& z) ^^^ (y &&& z)

/-- The 64 round constants of SHA-256 (FIPS 180-4 section 4.2.2, the
fractional parts of the cube roots of the first 64 primes), in decimal. -/
def sha256K : List Nat :=
  [1116352408, 1899447441, 3049323471, 3921009573, 961987163,
   1508970993, 2453635748, 2870763221, 3624381080, 310598401,
   607225278, 1426881987, 1925078388, 2162078206, 2614888103,
   3248222580, 3835390401, 4022224774, 264347078, 604807628,
   770255983, 1249150122, 1555081692, 1996064986, 2554220882,
   2821834349, 2952996808, 3210313671, 3336571891, 3584528711,
   113926993, 338241895, 666307205, 773529912, 1294757372,
   1396182291, 1695183700, 1986661051, 2177026350, 2456956037,
   2730485921, 2820302411, 3259730800, 3345764771, 3516065817,
   3600352804, 4094571909, 275423344, 430227734, 506948616,
   659060556, 883997877, 958139571, 1322822218, 1537002063,
   1747873779, 1955562222, 2024104815, 2227730452, 2361852424,
   2428436474, 2756734187, 3204031479, 3329325298]

/-- The eight working variables of the compression function. -/
structure H8 where
  a : Nat
  b : Nat
  c : Nat
  d : Nat
  e : Nat
  f : Nat
  g : Nat
  h : Nat
deriving Repr, DecidableEq

/-- All eight working variables are genuine 32-bit words. -/
def H8.bounded (s : H8) : Prop :=
  s.a < M32 ∧ s.b < M32 ∧ s.c < M32 ∧ s.d < M32 ∧
  s.e < M32 ∧ s.f < M32 ∧ s.g < M32 ∧ s.h < M32

/-- The SHA-256 initial hash value (FIPS 180-4 section 5.3.3), in decimal. -/
def sha256H0 : H8 :=
  ⟨1779033703, 3144134277, 1013904242, 2773480762,
   1359893119, 2600822924, 528734635, 1541459225⟩

/-- Pad a byte message per FIPS 180-4: append `0x80`, zero bytes, and the
bit length as eight big-endian bytes, to a multiple of 64 bytes. -/
def padMessage (msg : List Nat) : List Nat :=
  let bitLen := msg.length * 8
  let zeros := (119 - msg.length % 64) % 64
  msg ++ [0x80] ++ List.replicate zeros 0 ++
    [bitLen >>> 56 % 256, bitLen >>> 48 % 256, bitLen >>> 40 % 256,
     bitLen >>> 32 % 256, bitLen >>> 24 % 256, bitLen >>> 16 % 256,
     bitLen >>> 8 % 256, bitLen % 256]

/-- Accumulate bytes into 64-byte blocks; `cur` holds the current partial
block in reverse and `n` its length. -/
def chunks64Aux : List Nat → Nat → List Nat → List (List Nat)
  | cur, _, [] =>
      match cur with
      | [] => []
      | _ => [cur.reverse]
  | cur, n, x :: xs =>
      if n = 63 then (x :: cur).reverse :: chunks64Aux [] 0 xs
      else chunks64Aux (x :: cur) (n + 1) xs

/-- Split a byte list into 64-byte blocks. -/
def chunks64 (l : List Nat) : List (List Nat) := chunks64Aux [] 0 l

/-- Group four big-endian bytes into one 32-bit word, across a list. -/
def bytesToWords : List Nat → List Nat
  | a :: b :: c :: d :: rest => (((a * 256 + b) * 256 + c) * 256 + d) :: bytesToWords rest
  | _ => []

/-- Extend the message schedule.  The accumulator keeps the words produced so
far in reverse (newest first), so `w[t-2]` is at index 1, `w[t-7]` at 6,
`w[t-15]` at 14 and `w[t-16]` at 15. -/
def extendSchedule : Nat → List Nat → List Nat
  | 0, acc => acc
  | n + 1, acc =>
      let w := (ssig1 (acc.getD 1 0) + acc.getD 6 0 + ssig0 (acc.getD 14 0) +
                acc.getD 15 0) % M32
      extendSchedule n (w :: acc)

/-- One round of the SHA-256 compression function. -/
def sha256Round (st : H8) (k w : Nat) : H8 :=
  let t1 := (st.h + bsig1 st.e + ch st.e st.f st.g + k + w) % M32
  let t2 := (bsig0 st.a + maj st.a st.b st.c) % M32
  ⟨(t1 + t2) % M32, st.a, st.b, st.c, (st.d + t1) % M32, st.e, st.f, st.g⟩

/-- Process one 64-byte block. -/
def processBlock (st : H8) (block : List Nat) : H8 :=
  let ws := (extendSchedule 48 (bytesToWords block).reverse).reverse
  let sf := (sha256K.zip ws).foldl (fun s kw => sha256Round s kw.1 kw.2) st
  ⟨(st.a + sf.a) % M32, (st.b + sf.b) % M32, (st.c + sf.c) % M32,
   (st.d + sf.d) % M32, (st.e + sf.e) % M32, (st.f + sf.f) % M32,
   (st.g + sf.g) % M32, (st.h + sf.h) % M32⟩

/-- The SHA-256 state after hashing a whole message. -/
def sha256state (msg : List Nat) : H8 :=
  (chunks64 (padMessage msg)).foldl processBlock sha256H0

/-- The SHA-256 digest of a byte message, as a single natural number
(big-endian concatenation of the eight state words). -/
def sha256nat (msg : List Nat) : Nat :=
  let s := sha256state msg
  ((((((s.a * M32 + s.b) * M32 + s.c) * M32 + s.d) * M32 + s.e) * M32 + s.f)
     * M32 + s.g) * M32 + s.h

/-- Lowercase hex digit for a value `< 16`. -/
def hexChar (n : Nat) : Char :=
  if n < 10 then Char.ofNat (48 + n) else Char.ofNat (87 + n)

/-- Render `n` as exactly `k` lowercase hex digits, most significant first. -/
def natToHex : Nat → Nat → List Char
  | 0, _ => []
  | k + 1, n => natToHex k (n / 16) ++ [hexChar (n % 16)]

/-- Modelled from the spec: `helpers.sha256_of_bytes` — the SHA-256 hex digest
of a byte string, as `hashlib.sha256(b).hexdigest()` returns it (64 lowercase
hex characters). -/
def sha256_of_bytes (msg : List Nat) : String :=
  ⟨natToHex 64 (sha256nat msg)⟩

/-! ## JSON values and file contents

`_do_we_need_poetry_export` runs `json.loads(text)["hash"]` on the cache
file's text.  We model a parsed JSON value (`JVal`), and the text of a file
up to JSON-parse equivalence (`FileText`): `jsonText v` is any text that
`json.loads` parses to `v`, `rawText s` is text that is not valid JSON.
`json.loads` raises `json.JSONDecodeError` — a subclass of `ValueError` —
on invalid JSON; indexing a `dict` with a missing key raises `KeyError`;
indexing a non-`dict` JSON value (string, list, number) with a string key
raises `TypeError`.  None of these is `IOError` (`OSError`). -/

/-- A parsed JSON value (the fragment the component can encounter). -/
inductive JVal where
  | str (s : String)
  | num (n : Int)
  | obj (fields : List (String × JVal))

/-- The text content of a file, up to JSON-parse equivalence. -/
inductive FileText where
  | jsonText (v : JVal)
  | rawText (s : String)

/-- The Python exception classes the component can raise. -/
inductive PyErr where
  | ioError
  | valueError
  | keyError
  | typeError
  | calledProcessError
deriving DecidableEq, Repr

/-- Model of `json.loads` on a file's text: returns the parsed value, or raises
`json.JSONDecodeError` (a `ValueError`) when the text is not valid JSON. -/
def jsonLoads : FileText → Except PyErr JVal
  | .jsonText v => .ok v
  | .rawText _ => .error .valueError

/-- Lookup in a JSON object as a Python `dict` does: with duplicate keys the
last occurrence wins (that is how `json.loads` builds the dict). -/
def jsonObjGet (fields : List (String × JVal)) (key : String) : Option JVal :=
  (fields.reverse.find? (fun p => p.1 == key)).map (fun p => p.2)

/-- Python subscript `v[key]` on a parsed JSON value: `KeyError` when the
object lacks the key, `TypeError` when the value is not a dict. -/
def pyIndex (v : JVal) (key : String) : Except PyErr JVal :=
  match v with
  | .obj fields =>
      match jsonObjGet fields key with
      | some x => .ok x
      | none => .error .keyError
  | _ => .error .typeError

/-- Python `!=` between a `str` and an arbitrary value: string comparison
when the other side is a string, `True` otherwise. -/
def pyStrNe (s : String) (v : JVal) : Bool :=
  match v with
  | .str t => s != t
  | _ => true

/-! ## Filesystem state, worlds, and Python-style results -/

/-- An invocation of the external `poetry export` command (`subprocess.run`
with `check=True`); `with_hash = false` adds `--without-hashes`. -/
inductive ExportCmd where
  | exportMain (with_hash : Bool)
  | exportGroup (group : String) (with_hash : Bool)
deriving DecidableEq, Repr

/-- The slice of the project filesystem the component touches, one field per
path attribute of `PyWf`; `none` means the file does not exist. -/
structure FS where
  /-- content bytes of `poetry.lock` (`path_poetry_lock`) -/
  poetry_lock : Option (List Nat)
  /-- the text of the cache record `.poetry-lock-hash.json` (`path_poetry_lock_hash_json`) -/
  poetry_lock_hash_json : Option FileText
  /-- file `requirements.txt` (`path_requirements`) -/
  requirements : Option String
  /-- file `requirements-dev.txt` (`path_requirements_dev`) -/
  requirements_dev : Option String
  /-- file `requirements-test.txt` (`path_requirements_test`) -/
  requirements_test : Option String
  /-- file `requirements-doc.txt` (`path_requirements_doc`) -/
  requirements_doc : Option String
  /-- file `requirements-automation.txt` (`path_requirements_automation`) -/
  requirements_automation : Option String

/-- The four per-group output files passed to `_poetry_export_group` by
`_poetry_export_logic`. -/
inductive GroupFile where
  | dev
  | test
  | doc
  | auto
deriving DecidableEq, Repr

/-- Write (or delete, with `none`) a per-group output file. -/
def FS.setGroupFile (fs : FS) (p : GroupFile) (v : Option String) : FS :=
  match p with
  | .dev => { fs with requirements_dev := v }
  | .test => { fs with requirements_test := v }
  | .doc => { fs with requirements_doc := v }
  | .auto => { fs with requirements_automation := v }

/-- Read a per-group output file. -/
def FS.getGroupFile (fs : FS) (p : GroupFile) : Option String :=
  match p with
  | .dev => fs.requirements_dev
  | .test => fs.requirements_test
  | .doc => fs.requirements_doc
  | .auto => fs.requirements_automation

/-- A world: the filesystem plus the log of subprocess invocations executed
so far (used to state "no subprocess is executed" frame properties). -/
structure World where
  fs : FS
  executed : List ExportCmd

/-- Result of running a Python method: either a normal return or a raised
exception; both carry the final world, because side effects performed before
a raise persist. -/
inductive PyResult (α : Type) where
  | ok (a : α) (w : World)
  | exn (e : PyErr) (w : World)

/-- The final world of a result, raised or not. -/
def PyResult.world {α : Type} : PyResult α → World
  | .ok _ w => w
  | .exn _ w => w

/-- The value part of a result, forgetting the world. -/
def PyResult.val {α : Type} : PyResult α → Except PyErr α
  | .ok a _ => .ok a
  | .exn e _ => .error e

/-- Sequencing with Python exception semantics: a raise short-circuits,
keeping the world it was raised in. -/
def PyResult.andThen {α β : Type} (r : PyResult α) (f : α → World → PyResult β) :
    PyResult β :=
  match r with
  | .ok a w => f a w
  | .exn e w => .exn e w

/-- The behaviour of the external `poetry export` subprocess: whether each
command exits with status 0 and, if so, the text it writes to its
`--output` file.  The external command writes only its own output artifact. -/
structure ExportEnv where
  main_ok : Bool
  main_out : String
  group_ok : String → Bool
  group_out : String → String

/-! ## The embedded methods of `PyWfDeps` -/

/-- Model of `self.path_poetry_lock.read_bytes()`: raises `FileNotFoundError`
(an `OSError`, i.e. `IOError`) when `poetry.lock` does not exist. -/
def readPoetryLockBytes (w : World) : PyResult (List Nat) :=
  match w.fs.poetry_lock with
  | some b => .ok b w
  | none => .exn .ioError w

/-- Method `PyWfDeps._do_we_need_poetry_export`: if the cache record file exists,
parse it as JSON, take its `"hash"` entry and compare with the current hash;
if the file does not exist, return `True`.  Reads only; writes nothing. -/
def _do_we_need_poetry_export (current_poetry_lock_hash : String) (w : World) :
    PyResult Bool :=
  match w.fs.poetry_lock_hash_json with
  | some text =>
      match jsonLoads text with
      | .error e => .exn e w
      | .ok v =>
          match pyIndex v "hash" with
          | .error e => .exn e w
          | .ok cached => .ok (pyStrNe current_poetry_lock_hash cached) w
  | none => .ok true w

/-- Method `PyWfDeps._poetry_export_main`: `path_requirements.unlink(missing_ok=True)`
runs unconditionally, before the `real_run` check; then, only when
`real_run`, the export subprocess runs (with `check=True`) and on success
writes the output file. -/
def _poetry_export_main (env : ExportEnv) (with_hash real_run : Bool)
    (w : World) : PyResult Unit :=
  let w1 : World := { w with fs := { w.fs with requirements := none } }
  if real_run then
    let w2 : World :=
      { w1 with executed := w1.executed ++ [ExportCmd.exportMain with_hash] }
    if env.main_ok then
      .ok () { w2 with fs := { w2.fs with requirements := some env.main_out } }
    else
      .exn .calledProcessError w2
  else
    .ok () w1

/-- Method `PyWfDeps._poetry_export_group`: `path.unlink(missing_ok=True)` runs only
when `real_run`; then, only when `real_run`, the export subprocess runs
(with `check=True`) and on success writes the output file. -/
def _poetry_export_group (env : ExportEnv) (group : String) (path : GroupFile)
    (with_hash real_run : Bool) (w : World) : PyResult Unit :=
  let w1 : World := if real_run then { w with fs := w.fs.setGroupFile path none } else w
  if real_run then
    let w2 : World :=
      { w1 with executed := w1.executed ++ [ExportCmd.exportGroup group with_hash] }
    if env.group_ok group then
      .ok () { w2 with fs := w2.fs.setGroupFile path (some (env.group_out group)) }
    else
      .exn .calledProcessError w2
  else
    .ok () w1

/-- The description text written next to the hash in the cache record
(apostrophes written as the escape `\x27`). -/
def lockHashDescription : String :=
  "DON\x27T edit this file manually! This file is the cache of the poetry.lock file hash. It is used to avoid unnecessary expansive \x27poetry export ...\x27 command."

/-- The JSON object `json.dumps` serializes into the cache record file:
exactly a `"hash"` field and a `"description"` field. -/
def cacheRecordJson (h : String) : JVal :=
  .obj [("hash", .str h), ("description", .str lockHashDescription)]

/-- Method `PyWfDeps._poetry_export_logic`: export the main dependencies, then the
`dev`, `test`, `doc`, `auto` groups, and finally — only when `real_run` —
overwrite the cache record file with the JSON record holding the current
`poetry.lock` hash. -/
def _poetry_export_logic (env : ExportEnv) (current_poetry_lock_hash : String)
    (with_hash real_run : Bool) (w : World) : PyResult Unit :=
  (_poetry_export_main env with_hash real_run w).andThen fun _ w =>
  (_poetry_export_group env "dev" .dev with_hash real_run w).andThen fun _ w =>
  (_poetry_export_group env "test" .test with_hash real_run w).andThen fun _ w =>
  (_poetry_export_group env "doc" .doc with_hash real_run w).andThen fun _ w =>
  (_poetry_export_group env "auto" .auto with_hash real_run w).andThen fun _ w =>
  if real_run then
    let rec_ : Option FileText := some (.jsonText (cacheRecordJson current_poetry_lock_hash))
    .ok () { w with fs := { w.fs with poetry_lock_hash_json := rec_ } }
  else
    .ok () w

/-- Method `PyWfDeps._poetry_export`: hash the current `poetry.lock` bytes; if
`_do_we_need_poetry_export` says so, run `_poetry_export_logic` (with the
default `with_hash=True`) and return `True`, else return `False` and do
nothing. -/
def _poetry_export (env : ExportEnv) (real_run : Bool) (w : World) :
    PyResult Bool :=
  (readPoetryLockBytes w).andThen fun b w =>
  (_do_we_need_poetry_export (sha256_of_bytes b) w).andThen fun need w =>
  if need then
    (_poetry_export_logic env (sha256_of_bytes b) true real_run w).andThen
      fun _ w => .ok true w
  else
    .ok false w

/-- Whether every export subprocess invocation performed by
`_poetry_export_logic` (main plus the `dev`, `test`, `doc`, `auto` groups)
exits with status 0 under the oracle `env`. -/
def ExportEnv.allOk (env : ExportEnv) : Bool :=
  env.main_ok && env.group_ok "dev" && env.group_ok "test" &&
    env.group_ok "doc" && env.group_ok "auto"

/-! ## Concrete worlds and oracles used by the witness theorems -/

/-- An empty project filesystem: none of the modelled files exist. -/
def fsEmpty : FS := ⟨none, none, none, none, none, none, none⟩

/-- A world whose cache record file exists but is not valid JSON. -/
def wRawCache : World :=
  ⟨{ fsEmpty with poetry_lock_hash_json := some (.rawText "not a json text") }, []⟩

/-- A world whose cache record file is valid JSON but lacks a `"hash"` field. -/
def wNoHashField : World :=
  ⟨{ fsEmpty with
      poetry_lock_hash_json := some (.jsonText (.obj [("note", .str "x")])) }, []⟩

/-- A world whose cache record caches an arbitrary given hash string. -/
def wCachedFor (h : String) : World :=
  ⟨{ fsEmpty with poetry_lock_hash_json := some (.jsonText (cacheRecordJson h)) }, []⟩

/-- A world whose cache record holds the hash `"bb"`. -/
def wCachedBB : World :=
  ⟨{ fsEmpty with poetry_lock_hash_json := some (.jsonText (cacheRecordJson "bb")) }, []⟩

/-- A world where only `poetry.lock` exists, with content bytes `[1, 2, 3]`. -/
def wLockOnly : World := ⟨{ fsEmpty with poetry_lock := some [1, 2, 3] }, []⟩

/-- A subprocess oracle under which every export command succeeds. -/
def envAllOk : ExportEnv := ⟨true, "MAIN", fun _ => true, fun g => g⟩

/-- The world produced by a successful real refresh of `wLockOnly` under
`envAllOk`: all five output files written, the cache record holding the
digest of the lock bytes `[1, 2, 3]`. -/
def wAfterRefresh : World :=
  ⟨⟨some [1, 2, 3],
    some (.jsonText (cacheRecordJson (sha256_of_bytes [1, 2, 3]))),
    some "MAIN", some "dev", some "test", some "doc", some "auto"⟩,
   [ExportCmd.exportMain true, ExportCmd.exportGroup "dev" true,
    ExportCmd.exportGroup "test" true, ExportCmd.exportGroup "doc" true,
    ExportCmd.exportGroup "auto" true]⟩

/-- A subprocess oracle whose main export command exits non-zero. -/
def envMainFails : ExportEnv := ⟨false, "MAIN", fun _ => true, fun g => g⟩

end PyWfDeps

namespace PyWfDeps

/-! ## Helper lemmas about results and the embedded methods -/

@[simp] theorem PyResult.andThen_ok {α β : Type} (a : α) (w : World)
    (f : α → World → PyResult β) : (PyResult.ok a w).andThen f = f a w := rfl

@[simp] theorem PyResult.andThen_exn {α β : Type} (e : PyErr) (w : World)
    (f : α → World → PyResult β) :
    (PyResult.exn e w : PyResult α).andThen f = PyResult.exn e w := rfl

@[simp] theorem PyResult.world_ok {α : Type} (a : α) (w : World) :
    (PyResult.ok a w).world = w := rfl

@[simp] theorem PyResult.world_exn {α : Type} (e : PyErr) (w : World) :
    (PyResult.exn e w : PyResult α).world = w := rfl

@[simp] theorem PyResult.val_ok {α : Type} (a : α) (w : World) :
    (PyResult.ok a w).val = Except.ok a := rfl

@[simp] theorem PyResult.val_exn {α : Type} (e : PyErr) (w : World) :
    (PyResult.exn e w : PyResult α).val = Except.error e := rfl

/-- A result is determined by its value and its world. -/
theorem PyResult.eq_ok_of_val {α : Type} (r : PyResult α) (v : α)
    (hv : r.val = Except.ok v) : r = PyResult.ok v r.world := by
  cases r with
  | ok a w =>
      simp only [PyResult.val, Except.ok.injEq] at hv
      rw [hv]
      rfl
  | exn e w => simp [PyResult.val] at hv

/-- Overwriting the same group file twice keeps only the last write. -/
theorem FS.setGroupFile_setGroupFile (fs : FS) (p : GroupFile)
    (v1 v2 : Option String) :
    (fs.setGroupFile p v1).setGroupFile p v2 = fs.setGroupFile p v2 := by
  cases p <;> rfl

/-- Writing a group file leaves the cache record file alone. -/
theorem FS.setGroupFile_cache (fs : FS) (p : GroupFile) (v : Option String) :
    (fs.setGroupFile p v).poetry_lock_hash_json = fs.poetry_lock_hash_json := by
  cases p <;> rfl

/-- Writing a group file leaves `poetry.lock` alone. -/
theorem FS.setGroupFile_lock (fs : FS) (p : GroupFile) (v : Option String) :
    (fs.setGroupFile p v).poetry_lock = fs.poetry_lock := by
  cases p <;> rfl

/-- The staleness check never changes the world, whatever it returns. -/
theorem do_we_need_world_eq (h : String) (w : World) :
    (_do_we_need_poetry_export h w).world = w := by
  unfold _do_we_need_poetry_export
  repeat' split
  all_goals rfl

/-- Cold start: absent cache record means the check returns `true`. -/
theorem do_we_need_of_none (h : String) (w : World)
    (hw : w.fs.poetry_lock_hash_json = none) :
    _do_we_need_poetry_export h w = PyResult.ok true w := by
  unfold _do_we_need_poetry_export
  rw [hw]

/-- On a cache record written by `_poetry_export_logic`, the check compares
the two hex digests with `!=`. -/
theorem do_we_need_of_record (h1 h2 : String) (w : World)
    (hw : w.fs.poetry_lock_hash_json = some (.jsonText (cacheRecordJson h1))) :
    _do_we_need_poetry_export h2 w = PyResult.ok (h2 != h1) w := by
  unfold _do_we_need_poetry_export
  rw [hw]
  rfl

/-- The value of the staleness check depends only on the cache record file. -/
theorem do_we_need_val_congr (h : String) (w1 w2 : World)
    (hc : w1.fs.poetry_lock_hash_json = w2.fs.poetry_lock_hash_json) :
    (_do_we_need_poetry_export h w1).val = (_do_we_need_poetry_export h w2).val := by
  unfold _do_we_need_poetry_export
  rw [hc]
  repeat' split
  all_goals rfl

/-- Dry-run main export: the unconditional unlink still happens, nothing
else does. -/
theorem export_main_dry (env : ExportEnv) (wh : Bool) (w : World) :
    _poetry_export_main env wh false w =
      PyResult.ok () { w with fs := { w.fs with requirements := none } } := rfl

/-- Dry-run group export: a complete no-op. -/
theorem export_group_dry (env : ExportEnv) (g : String) (p : GroupFile)
    (wh : Bool) (w : World) :
    _poetry_export_group env g p wh false w = PyResult.ok () w := rfl

/-- Dry-run logic: deletes `requirements.txt` and does nothing else — in
particular it runs no subprocess and never writes the cache record. -/
theorem logic_dry (env : ExportEnv) (h : String) (wh : Bool) (w : World) :
    _poetry_export_logic env h wh false w =
      PyResult.ok () { w with fs := { w.fs with requirements := none } } := rfl

/-- Real-run main export when the subprocess succeeds. -/
theorem export_main_real_ok (env : ExportEnv) (wh : Bool) (w : World)
    (hm : env.main_ok = true) :
    _poetry_export_main env wh true w =
      PyResult.ok () ⟨{ w.fs with requirements := some env.main_out },
        w.executed ++ [ExportCmd.exportMain wh]⟩ := by
  simp [_poetry_export_main, hm]

/-- Real-run main export when the subprocess exits non-zero: the output file
is already deleted, the command is logged, and the error propagates. -/
theorem export_main_real_fail (env : ExportEnv) (wh : Bool) (w : World)
    (hm : env.main_ok = false) :
    _poetry_export_main env wh true w =
      PyResult.exn .calledProcessError ⟨{ w.fs with requirements := none },
        w.executed ++ [ExportCmd.exportMain wh]⟩ := by
  simp [_poetry_export_main, hm]

/-- Real-run group export when the subprocess succeeds. -/
theorem export_group_real_ok (env : ExportEnv) (g : String) (p : GroupFile)
    (wh : Bool) (w : World) (hg : env.group_ok g = true) :
    _poetry_export_group env g p wh true w =
      PyResult.ok () ⟨w.fs.setGroupFile p (some (env.group_out g)),
        w.executed ++ [ExportCmd.exportGroup g wh]⟩ := by
  simp [_poetry_export_group, hg, FS.setGroupFile_setGroupFile]

/-- Real-run group export when the subprocess exits non-zero. -/
theorem export_group_real_fail (env : ExportEnv) (g : String) (p : GroupFile)
    (wh : Bool) (w : World) (hg : env.group_ok g = false) :
    _poetry_export_group env g p wh true w =
      PyResult.exn .calledProcessError ⟨w.fs.setGroupFile p none,
        w.executed ++ [ExportCmd.exportGroup g wh]⟩ := by
  simp [_poetry_export_group, hg]

/-- Real-run logic when every export subprocess succeeds: all five output
files are rewritten and the cache record is overwritten with exactly the
`hash`/`description` object, as the final step. -/
theorem logic_real_ok (env : ExportEnv) (h : String) (wh : Bool) (w : World)
    (hm : env.main_ok = true) (h1 : env.group_ok "dev" = true)
    (h2 : env.group_ok "test" = true) (h3 : env.group_ok "doc" = true)
    (h4 : env.group_ok "auto" = true) :
    _poetry_export_logic env h wh true w =
      PyResult.ok () ⟨{ (((({ w.fs with requirements := some env.main_out
            }).setGroupFile GroupFile.dev (some (env.group_out "dev"))
            ).setGroupFile GroupFile.test (some (env.group_out "test"))
            ).setGroupFile GroupFile.doc (some (env.group_out "doc"))
            ).setGroupFile GroupFile.auto (some (env.group_out "auto")) with
            poetry_lock_hash_json := some (.jsonText (cacheRecordJson h)) },
        w.executed ++ [ExportCmd.exportMain wh, ExportCmd.exportGroup "dev" wh,
          ExportCmd.exportGroup "test" wh, ExportCmd.exportGroup "doc" wh,
          ExportCmd.exportGroup "auto" wh]⟩ := by
  unfold _poetry_export_logic
  rw [export_main_real_ok env wh w hm]
  simp only [PyResult.andThen_ok]
  rw [export_group_real_ok env "dev" GroupFile.dev wh _ h1]
  simp only [PyResult.andThen_ok]
  rw [export_group_real_ok env "test" GroupFile.test wh _ h2]
  simp only [PyResult.andThen_ok]
  rw [export_group_real_ok env "doc" GroupFile.doc wh _ h3]
  simp only [PyResult.andThen_ok]
  rw [export_group_real_ok env "auto" GroupFile.auto wh _ h4]
  simp only [PyResult.andThen_ok]
  simp [List.append_assoc]

/-- Inversion for a successful real-run logic: every subprocess must have
succeeded, the cache record now holds exactly the current hash record, and
`poetry.lock` itself was not touched. -/
theorem logic_real_ok_inv (env : ExportEnv) (h : String) (wh : Bool)
    (w w2 : World)
    (hok : _poetry_export_logic env h wh true w = PyResult.ok () w2) :
    env.allOk = true ∧
    w2.fs.poetry_lock_hash_json = some (.jsonText (cacheRecordJson h)) ∧
    w2.fs.poetry_lock = w.fs.poetry_lock := by
  cases hm : env.main_ok with
  | false =>
      exfalso
      unfold _poetry_export_logic at hok
      rw [export_main_real_fail env wh w hm] at hok
      simp at hok
  | true =>
      cases h1 : env.group_ok "dev" with
      | false =>
          exfalso
          unfold _poetry_export_logic at hok
          rw [export_main_real_ok env wh w hm] at hok
          simp only [PyResult.andThen_ok] at hok
          rw [export_group_real_fail env "dev" GroupFile.dev wh _ h1] at hok
          simp at hok
      | true =>
          cases h2 : env.group_ok "test" with
          | false =>
              exfalso
              unfold _poetry_export_logic at hok
              rw [export_main_real_ok env wh w hm] at hok
              simp only [PyResult.andThen_ok] at hok
              rw [export_group_real_ok env "dev" GroupFile.dev wh _ h1] at hok
              simp only [PyResult.andThen_ok] at hok
              rw [export_group_real_fail env "test" GroupFile.test wh _ h2] at hok
              simp at hok
          | true =>
              cases h3 : env.group_ok "doc" with
              | false =>
                  exfalso
                  unfold _poetry_export_logic at hok
                  rw [export_main_real_ok env wh w hm] at hok
                  simp only [PyResult.andThen_ok] at hok
                  rw [export_group_real_ok env "dev" GroupFile.dev wh _ h1] at hok
                  simp only [PyResult.andThen_ok] at hok
                  rw [export_group_real_ok env "test" GroupFile.test wh _ h2] at hok
                  simp only [PyResult.andThen_ok] at hok
                  rw [export_group_real_fail env "doc" GroupFile.doc wh _ h3] at hok
                  simp at hok
              | true =>
                  cases h4 : env.group_ok "auto" with
                  | false =>
                      exfalso
                      unfold _poetry_export_logic at hok
                      rw [export_main_real_ok env wh w hm] at hok
                      simp only [PyResult.andThen_ok] at hok
                      rw [export_group_real_ok env "dev" GroupFile.dev wh _ h1] at hok
                      simp only [PyResult.andThen_ok] at hok
                      rw [export_group_real_ok env "test" GroupFile.test wh _ h2] at hok
                      simp only [PyResult.andThen_ok] at hok
                      rw [export_group_real_ok env "doc" GroupFile.doc wh _ h3] at hok
                      simp only [PyResult.andThen_ok] at hok
                      rw [export_group_real_fail env "auto" GroupFile.auto wh _ h4] at hok
                      simp at hok
                  | true =>
                      rw [logic_real_ok env h wh w hm h1 h2 h3 h4] at hok
                      simp only [PyResult.ok.injEq, true_and] at hok
                      subst hok
                      refine ⟨?_, rfl, rfl⟩
                      simp [ExportEnv.allOk, hm, h1, h2, h3, h4]

/-- Inversion for a real-run logic that raised: whichever export subprocess
failed, the cache record file and `poetry.lock` are exactly as before. -/
theorem logic_real_exn_inv (env : ExportEnv) (h : String) (wh : Bool)
    (w : World) (e : PyErr) (w2 : World)
    (hex : _poetry_export_logic env h wh true w = PyResult.exn e w2) :
    w2.fs.poetry_lock_hash_json = w.fs.poetry_lock_hash_json ∧
    w2.fs.poetry_lock = w.fs.poetry_lock := by
  cases hm : env.main_ok with
  | false =>
      unfold _poetry_export_logic at hex
      rw [export_main_real_fail env wh w hm] at hex
      simp only [PyResult.andThen_exn, PyResult.exn.injEq] at hex
      obtain ⟨-, hw2⟩ := hex
      subst hw2
      exact ⟨rfl, rfl⟩
  | true =>
      cases h1 : env.group_ok "dev" with
      | false =>
          unfold _poetry_export_logic at hex
          rw [export_main_real_ok env wh w hm] at hex
          simp only [PyResult.andThen_ok] at hex
          rw [export_group_real_fail env "dev" GroupFile.dev wh _ h1] at hex
          simp only [PyResult.andThen_exn, PyResult.exn.injEq] at hex
          obtain ⟨-, hw2⟩ := hex
          subst hw2
          exact ⟨rfl, rfl⟩
      | true =>
          cases h2 : env.group_ok "test" with
          | false =>
              unfold _poetry_export_logic at hex
              rw [export_main_real_ok env wh w hm] at hex
              simp only [PyResult.andThen_ok] at hex
              rw [export_group_real_ok env "dev" GroupFile.dev wh _ h1] at hex
              simp only [PyResult.andThen_ok] at hex
              rw [export_group_real_fail env "test" GroupFile.test wh _ h2] at hex
              simp only [PyResult.andThen_exn, PyResult.exn.injEq] at hex
              obtain ⟨-, hw2⟩ := hex
              subst hw2
              exact ⟨rfl, rfl⟩
          | true =>
              cases h3 : env.group_ok "doc" with
              | false =>
                  unfold _poetry_export_logic at hex
                  rw [export_main_real_ok env wh w hm] at hex
                  simp only [PyResult.andThen_ok] at hex
                  rw [export_group_real_ok env "dev" GroupFile.dev wh _ h1] at hex
                  simp only [PyResult.andThen_ok] at hex
                  rw [export_group_real_ok env "test" GroupFile.test wh _ h2] at hex
                  simp only [PyResult.andThen_ok] at hex
                  rw [export_group_real_fail env "doc" GroupFile.doc wh _ h3] at hex
                  simp only [PyResult.andThen_exn, PyResult.exn.injEq] at hex
                  obtain ⟨-, hw2⟩ := hex
                  subst hw2
                  exact ⟨rfl, rfl⟩
              | true =>
                  cases h4 : env.group_ok "auto" with
                  | false =>
                      unfold _poetry_export_logic at hex
                      rw [export_main_real_ok env wh w hm] at hex
                      simp only [PyResult.andThen_ok] at hex
                      rw [export_group_real_ok env "dev" GroupFile.dev wh _ h1] at hex
                      simp only [PyResult.andThen_ok] at hex
                      rw [export_group_real_ok env "test" GroupFile.test wh _ h2] at hex
                      simp only [PyResult.andThen_ok] at hex
                      rw [export_group_real_ok env "doc" GroupFile.doc wh _ h3] at hex
                      simp only [PyResult.andThen_ok] at hex
                      rw [export_group_real_fail env "auto" GroupFile.auto wh _ h4] at hex
                      simp only [PyResult.andThen_exn, PyResult.exn.injEq] at hex
                      obtain ⟨-, hw2⟩ := hex
                      subst hw2
                      exact ⟨rfl, rfl⟩
                  | true =>
                      exfalso
                      rw [logic_real_ok env h wh w hm h1 h2 h3 h4] at hex
                      simp at hex

/-- Reading an existing `poetry.lock` returns its bytes without effects. -/
theorem read_lock_of_some (w : World) (b : List Nat)
    (hb : w.fs.poetry_lock = some b) :
    readPoetryLockBytes w = PyResult.ok b w := by
  unfold readPoetryLockBytes
  rw [hb]

/-- A result is also determined by a raised value and its world. -/
theorem PyResult.eq_exn_of_val {α : Type} (r : PyResult α) (e : PyErr)
    (hv : r.val = Except.error e) : r = PyResult.exn e r.world := by
  cases r with
  | ok a w => simp [PyResult.val] at hv
  | exn e2 w =>
      simp only [PyResult.val, Except.error.injEq] at hv
      rw [hv]
      rfl

/-- A staleness check whose value is `ok v` is the effect-free result
`ok v` in the unchanged starting world. -/
theorem do_we_need_eq_ok (h : String) (w : World) (v : Bool)
    (hv : (_do_we_need_poetry_export h w).val = Except.ok v) :
    _do_we_need_poetry_export h w = PyResult.ok v w := by
  have h2 := PyResult.eq_ok_of_val _ v hv
  rwa [do_we_need_world_eq] at h2

/-- A staleness check whose value is an error is the raise of that error in
the unchanged starting world. -/
theorem do_we_need_eq_exn (h : String) (w : World) (e : PyErr)
    (hv : (_do_we_need_poetry_export h w).val = Except.error e) :
    _do_we_need_poetry_export h w = PyResult.exn e w := by
  have h2 := PyResult.eq_exn_of_val _ e hv
  rwa [do_we_need_world_eq] at h2

/-- Unfolding `_poetry_export` once `poetry.lock` is known to exist. -/
theorem poetry_export_unfold (env : ExportEnv) (rr : Bool) (w : World)
    (b : List Nat) (hb : w.fs.poetry_lock = some b) :
    _poetry_export env rr w =
      (_do_we_need_poetry_export (sha256_of_bytes b) w).andThen fun need w1 =>
        if need then
          (_poetry_export_logic env (sha256_of_bytes b) true rr w1).andThen
            fun _ w3 => PyResult.ok true w3
        else PyResult.ok false w1 := by
  unfold _poetry_export
  rw [read_lock_of_some w b hb]
  simp only [PyResult.andThen_ok]

/-- When some export subprocess fails, the real-run logic raises
`CalledProcessError`. -/
theorem logic_real_fails (env : ExportEnv) (h : String) (wh : Bool) (w : World)
    (hbad : env.allOk = false) :
    ∃ w2, _poetry_export_logic env h wh true w =
      PyResult.exn .calledProcessError w2 := by
  simp only [ExportEnv.allOk, Bool.and_eq_false_iff] at hbad
  unfold _poetry_export_logic
  rcases hbad with (((hbad | hbad) | hbad) | hbad) | hbad
  · rw [export_main_real_fail env wh w hbad]
    exact ⟨_, rfl⟩
  · cases hm : env.main_ok with
    | false =>
        rw [export_main_real_fail env wh w hm]
        exact ⟨_, rfl⟩
    | true =>
        rw [export_main_real_ok env wh w hm]
        simp only [PyResult.andThen_ok]
        rw [export_group_real_fail env "dev" GroupFile.dev wh _ hbad]
        exact ⟨_, rfl⟩
  · cases hm : env.main_ok with
    | false =>
        rw [export_main_real_fail env wh w hm]
        exact ⟨_, rfl⟩
    | true =>
        rw [export_main_real_ok env wh w hm]
        simp only [PyResult.andThen_ok]
        cases h1 : env.group_ok "dev" with
        | false =>
            rw [export_group_real_fail env "dev" GroupFile.dev wh _ h1]
            exact ⟨_, rfl⟩
        | true =>
            rw [export_group_real_ok env "dev" GroupFile.dev wh _ h1]
            simp only [PyResult.andThen_ok]
            rw [export_group_real_fail env "test" GroupFile.test wh _ hbad]
            exact ⟨_, rfl⟩
  · cases hm : env.main_ok with
    | false =>
        rw [export_main_real_fail env wh w hm]
        exact ⟨_, rfl⟩
    | true =>
        rw [export_main_real_ok env wh w hm]
        simp only [PyResult.andThen_ok]
        cases h1 : env.group_ok "dev" with
        | false =>
            rw [export_group_real_fail env "dev" GroupFile.dev wh _ h1]
            exact ⟨_, rfl⟩
        | true =>
            rw [export_group_real_ok env "dev" GroupFile.dev wh _ h1]
            simp only [PyResult.andThen_ok]
            cases h2 : env.group_ok "test" with
            | false =>
                rw [export_group_real_fail env "test" GroupFile.test wh _ h2]
                exact ⟨_, rfl⟩
            | true =>
                rw [export_group_real_ok env "test" GroupFile.test wh _ h2]
                simp only [PyResult.andThen_ok]
                rw [export_group_real_fail env "doc" GroupFile.doc wh _ hbad]
                exact ⟨_, rfl⟩
  · cases hm : env.main_ok with
    | false =>
        rw [export_main_real_fail env wh w hm]
        exact ⟨_, rfl⟩
    | true =>
        rw [export_main_real_ok env wh w hm]
        simp only [PyResult.andThen_ok]
        cases h1 : env.group_ok "dev" with
        | false =>
            rw [export_group_real_fail env "dev" GroupFile.dev wh _ h1]
            exact ⟨_, rfl⟩
        | true =>
            rw [export_group_real_ok env "dev" GroupFile.dev wh _ h1]
            simp only [PyResult.andThen_ok]
            cases h2 : env.group_ok "test" with
            | false =>
                rw [export_group_real_fail env "test" GroupFile.test wh _ h2]
                exact ⟨_, rfl⟩
            | true =>
                rw [export_group_real_ok env "test" GroupFile.test wh _ h2]
                simp only [PyResult.andThen_ok]
                cases h3 : env.group_ok "doc" with
                | false =>
                    rw [export_group_real_fail env "doc" GroupFile.doc wh _ h3]
                    exact ⟨_, rfl⟩
                | true =>
                    rw [export_group_real_ok env "doc" GroupFile.doc wh _ h3]
                    simp only [PyResult.andThen_ok]
                    rw [export_group_real_fail env "auto" GroupFile.auto wh _ hbad]
                    exact ⟨_, rfl⟩

/-! ## Sanity checks of the SHA-256 model -/

/-- FIPS 180-4 test vector: the digest of the empty message. -/
theorem sha256_empty_vector :
    sha256_of_bytes [] =
      "e3b0c44298fc1c149afbf4c8996fb92427ae41e4649b934ca495991b7852b855" := by
  rfl

/-- FIPS 180-4 test vector: the digest of `"abc"`. -/
theorem sha256_abc_vector :
    sha256_of_bytes [97, 98, 99] =
      "ba7816bf8f01cfea414140de5dae2223b00361a396177a9cb410ff61f20015ad" := by
  rfl

/-! ## The claims -/

/-- C1: for every real-run invocation of the export refresh
(`_poetry_export_logic` with `real_run = true`), the cache record file's
hash is updated — overwritten with the record holding the current hash — if
and only if every export subprocess invocation completed without error; if
any export command fails (raises), the cache record file (or its absence)
is left exactly as before the attempt, so a subsequent
`_do_we_need_poetry_export` on the same input returns the same result as
before the failed attempt. -/
theorem C1_refresh_updates_cache_iff_all_exports_succeed
    (env : ExportEnv) (h : String) (wh : Bool) (w : World) :
    (env.allOk = true ↔
      ∃ w2, _poetry_export_logic env h wh true w = PyResult.ok () w2 ∧
        w2.fs.poetry_lock_hash_json = some (.jsonText (cacheRecordJson h))) ∧
    (∀ e w2, _poetry_export_logic env h wh true w = PyResult.exn e w2 →
      w2.fs.poetry_lock_hash_json = w.fs.poetry_lock_hash_json ∧
      ∀ h2, (_do_we_need_poetry_export h2 w2).val =
        (_do_we_need_poetry_export h2 w).val) := by
  constructor
  · constructor
    · intro hall
      simp only [ExportEnv.allOk, Bool.and_eq_true] at hall
      obtain ⟨⟨⟨⟨hm, h1⟩, h2⟩, h3⟩, h4⟩ := hall
      exact ⟨_, logic_real_ok env h wh w hm h1 h2 h3 h4, rfl⟩
    · intro hex
      obtain ⟨w2, hok, -⟩ := hex
      exact (logic_real_ok_inv env h wh w w2 hok).1
  · intro e w2 hex
    have hfr := logic_real_exn_inv env h wh w e w2 hex
    exact ⟨hfr.1, fun h2 => do_we_need_val_congr h2 w2 w hfr.1⟩

/-- Witness for C1: under an oracle whose main export fails, the refresh
raises and a later staleness check gives the same answer as before. -/
theorem C1_witness :
    (_do_we_need_poetry_export "zz"
        ⟨{ wCachedBB.fs with requirements := none },
         [ExportCmd.exportMain true]⟩).val =
      (_do_we_need_poetry_export "zz" wCachedBB).val :=
  ((C1_refresh_updates_cache_iff_all_exports_succeed envMainFails "cafe" true
      wCachedBB).2 .calledProcessError
      ⟨{ wCachedBB.fs with requirements := none }, [ExportCmd.exportMain true]⟩
      rfl).2 "zz"

/-- C2: for any input bytes `b`, if the cache record file does not exist,
`_do_we_need_poetry_export` on the SHA-256 of `b` returns `true`. -/
theorem C2_cold_start_needs_refresh (b : List Nat) (w : World)
    (hnone : w.fs.poetry_lock_hash_json = none) :
    _do_we_need_poetry_export (sha256_of_bytes b) w = PyResult.ok true w :=
  do_we_need_of_none _ w hnone

/-- Witness for C2 at the concrete world `wLockOnly` (no cache record). -/
theorem C2_witness :
    _do_we_need_poetry_export (sha256_of_bytes [1, 2, 3]) wLockOnly =
      PyResult.ok true wLockOnly :=
  C2_cold_start_needs_refresh [1, 2, 3] wLockOnly rfl

/-- C3: when a well-formed cache record exists (its `"hash"` entry is the
string `cached`), the check returns exactly the boolean
`current != cached`, and it performs no write: the result's world is the
starting world, unchanged. -/
theorem C3_present_record_pure_check (current cached : String) (v : JVal)
    (w : World)
    (hsome : w.fs.poetry_lock_hash_json = some (.jsonText v))
    (hhash : pyIndex v "hash" = Except.ok (.str cached)) :
    _do_we_need_poetry_export current w = PyResult.ok (current != cached) w := by
  unfold _do_we_need_poetry_export
  rw [hsome]
  simp only [jsonLoads]
  rw [hhash]
  rfl

/-- Witness for C3: checking `"aa"` against a record caching `"bb"`. -/
theorem C3_witness :
    _do_we_need_poetry_export "aa" wCachedBB = PyResult.ok true wCachedBB :=
  C3_present_record_pure_check "aa" "bb" (cacheRecordJson "bb") wCachedBB rfl rfl

/-- C4, counterexample to the claim as stated: on a cache record file that
exists but is not valid JSON, the check raises `ValueError`
(`json.JSONDecodeError`), not `IOError` — the claimed exception class is
wrong. -/
theorem C4_counterexample_not_ioerror :
    (_do_we_need_poetry_export "aa" wRawCache).val =
      Except.error PyErr.valueError ∧
    PyErr.valueError ≠ PyErr.ioError :=
  ⟨rfl, by decide⟩

/-- C4 as amended: if the cache record file exists but cannot be parsed as
the expected structured format, the check fails with an exception —
`ValueError` (`json.JSONDecodeError`) for malformed JSON, `KeyError` for a
missing `"hash"` field — surfaced to the caller immediately; it is never
silently treated as "needs refresh" and never auto-repaired (the world is
unchanged). -/
theorem C4_corrupt_cache_raises (current : String) (w : World) :
    (∀ s, w.fs.poetry_lock_hash_json = some (.rawText s) →
        _do_we_need_poetry_export current w = PyResult.exn .valueError w) ∧
    (∀ v, w.fs.poetry_lock_hash_json = some (.jsonText v) →
        pyIndex v "hash" = Except.error .keyError →
        _do_we_need_poetry_export current w = PyResult.exn .keyError w) := by
  constructor
  · intro s hs
    unfold _do_we_need_poetry_export
    rw [hs]
    rfl
  · intro v hv hk
    unfold _do_we_need_poetry_export
    rw [hv]
    simp only [jsonLoads]
    rw [hk]

/-- Witness for C4: both corrupt-cache shapes at concrete worlds. -/
theorem C4_witness :
    _do_we_need_poetry_export "aa" wRawCache =
      PyResult.exn .valueError wRawCache ∧
    _do_we_need_poetry_export "aa" wNoHashField =
      PyResult.exn .keyError wNoHashField :=
  ⟨(C4_corrupt_cache_raises "aa" wRawCache).1 "not a json text" rfl,
   (C4_corrupt_cache_raises "aa" wNoHashField).2 (.obj [("note", .str "x")])
     rfl rfl⟩

/-- C5: `_poetry_export` combines the check and the refresh: when the check
on the current input's hash says `true` it performs the full
export-and-cache-write sequence (`_poetry_export_logic`) and returns `true`;
when the check says `false` it returns `false` and performs no action — the
world (files and executed-subprocess log) is exactly the starting world. -/
theorem C5_run_if_needed (env : ExportEnv) (rr : Bool) (w : World)
    (b : List Nat) (hlock : w.fs.poetry_lock = some b) :
    ((_do_we_need_poetry_export (sha256_of_bytes b) w).val = Except.ok true →
        _poetry_export env rr w =
          (_poetry_export_logic env (sha256_of_bytes b) true rr w).andThen
            (fun _ w2 => PyResult.ok true w2)) ∧
    ((_do_we_need_poetry_export (sha256_of_bytes b) w).val = Except.ok false →
        _poetry_export env rr w = PyResult.ok false w) := by
  constructor
  · intro hneed
    rw [poetry_export_unfold env rr w b hlock,
        do_we_need_eq_ok _ w true hneed]
    simp
  · intro hneed
    rw [poetry_export_unfold env rr w b hlock,
        do_we_need_eq_ok _ w false hneed]
    simp

/-- Witness for C5: a cold start runs the full sequence and returns `true`;
a warm start whose record holds the current digest returns `false` with the
world untouched. -/
theorem C5_witness :
    _poetry_export envAllOk true wLockOnly =
      (_poetry_export_logic envAllOk (sha256_of_bytes [1, 2, 3]) true true
          wLockOnly).andThen (fun _ w2 => PyResult.ok true w2) ∧
    _poetry_export envAllOk true wAfterRefresh =
      PyResult.ok false wAfterRefresh :=
  ⟨(C5_run_if_needed envAllOk true wLockOnly [1, 2, 3] rfl).1 rfl,
   (C5_run_if_needed envAllOk true wAfterRefresh [1, 2, 3] rfl).2 rfl⟩

/-- C6: idempotence under unchanged input — after a successful real-run
refresh for input `b`, the staleness check on `b` returns `false`, and an
immediately following `_poetry_export` returns `false` performing no
action. -/
theorem C6_idempotent_after_refresh (env env2 : ExportEnv) (wh : Bool)
    (w w2 : World) (b : List Nat)
    (hlock : w.fs.poetry_lock = some b)
    (hok : _poetry_export_logic env (sha256_of_bytes b) wh true w =
      PyResult.ok () w2) :
    _do_we_need_poetry_export (sha256_of_bytes b) w2 = PyResult.ok false w2 ∧
    ∀ rr, _poetry_export env2 rr w2 = PyResult.ok false w2 := by
  obtain ⟨-, hcache, hlk⟩ := logic_real_ok_inv env _ wh w w2 hok
  have hchk : _do_we_need_poetry_export (sha256_of_bytes b) w2 =
      PyResult.ok false w2 := by
    rw [do_we_need_of_record (sha256_of_bytes b) (sha256_of_bytes b) w2 hcache]
    simp
  refine ⟨hchk, fun rr => ?_⟩
  have hlk2 : w2.fs.poetry_lock = some b := by rw [hlk, hlock]
  rw [poetry_export_unfold env2 rr w2 b hlk2, hchk]
  simp

/-- Witness for C6: after the concrete refresh of `wLockOnly`, a second run
does nothing. -/
theorem C6_witness :
    _poetry_export envAllOk true wAfterRefresh =
      PyResult.ok false wAfterRefresh :=
  ((C6_idempotent_after_refresh envAllOk envAllOk true wLockOnly wAfterRefresh
      [1, 2, 3] rfl rfl).2) true

/-- C8: invariant on the persisted cache record — across every operation of
the component, the record is written only as the final step of an export run
that actually executed (`real_run = true`) and fully succeeded; the write
fully overwrites it with the JSON object holding exactly the `"hash"` field
(the digest of the input read at the start of the run) and a
`"description"` field; no other code path (single exports, the staleness
check, dry runs, failed runs) writes it. -/
theorem C8_cache_record_write_invariant (env : ExportEnv) :
    (∀ wh rr (w : World),
        ((_poetry_export_main env wh rr w).world).fs.poetry_lock_hash_json =
          w.fs.poetry_lock_hash_json) ∧
    (∀ g p wh rr (w : World),
        ((_poetry_export_group env g p wh rr w).world).fs.poetry_lock_hash_json =
          w.fs.poetry_lock_hash_json) ∧
    (∀ h (w : World), (_do_we_need_poetry_export h w).world = w) ∧
    (∀ h wh (w : World),
        ((_poetry_export_logic env h wh false w).world).fs.poetry_lock_hash_json =
          w.fs.poetry_lock_hash_json) ∧
    (∀ h wh (w w2 : World),
        _poetry_export_logic env h wh true w = PyResult.ok () w2 →
        w2.fs.poetry_lock_hash_json = some (.jsonText (cacheRecordJson h))) ∧
    (∀ h wh (w : World) e w2,
        _poetry_export_logic env h wh true w = PyResult.exn e w2 →
        w2.fs.poetry_lock_hash_json = w.fs.poetry_lock_hash_json) ∧
    (∀ (w w2 : World) b, w.fs.poetry_lock = some b →
        _poetry_export env true w = PyResult.ok true w2 →
        w2.fs.poetry_lock_hash_json =
          some (.jsonText (cacheRecordJson (sha256_of_bytes b)))) := by
  refine ⟨?_, ?_, ?_, ?_, ?_, ?_, ?_⟩
  · intro wh rr w
    cases rr with
    | false => rfl
    | true =>
        cases hm : env.main_ok with
        | false =>
            rw [export_main_real_fail env wh w hm]
            rfl
        | true =>
            rw [export_main_real_ok env wh w hm]
            rfl
  · intro g p wh rr w
    cases rr with
    | false => rfl
    | true =>
        cases hg : env.group_ok g with
        | false =>
            rw [export_group_real_fail env g p wh w hg]
            exact FS.setGroupFile_cache w.fs p none
        | true =>
            rw [export_group_real_ok env g p wh w hg]
            exact FS.setGroupFile_cache w.fs p _
  · intro h w
    exact do_we_need_world_eq h w
  · intro h wh w
    rw [logic_dry env h wh w]
    rfl
  · intro h wh w w2 hok
    exact (logic_real_ok_inv env h wh w w2 hok).2.1
  · intro h wh w e w2 hex
    exact (logic_real_exn_inv env h wh w e w2 hex).1
  · intro w w2 b hlock hex
    rw [poetry_export_unfold env true w b hlock] at hex
    cases hr : _do_we_need_poetry_export (sha256_of_bytes b) w with
    | exn e w1 =>
        rw [hr] at hex
        simp at hex
    | ok v w1 =>
        rw [hr] at hex
        simp only [PyResult.andThen_ok] at hex
        cases v with
        | false => simp at hex
        | true =>
            simp only [if_true] at hex
            cases hl : _poetry_export_logic env (sha256_of_bytes b) true true w1 with
            | exn e w3 =>
                rw [hl] at hex
                simp at hex
            | ok u w3 =>
                rw [hl] at hex
                simp only [PyResult.andThen_ok, PyResult.ok.injEq, true_and] at hex
                cases u
                subst hex
                exact (logic_real_ok_inv env _ true w1 w3 hl).2.1

/-- Witness for C8: the concrete successful refresh of `wLockOnly` ends with
the cache record holding exactly the hash of the lock bytes. -/
theorem C8_witness :
    wAfterRefresh.fs.poetry_lock_hash_json =
      some (.jsonText (cacheRecordJson (sha256_of_bytes [1, 2, 3]))) :=
  (C8_cache_record_write_invariant envAllOk).2.2.2.2.2.2 wLockOnly wAfterRefresh
    [1, 2, 3] rfl rfl

/-- C9: dry-run frame property — `_poetry_export` with `real_run = false`
executes no subprocess and never writes the cache record file, yet still
returns `true` whenever the record is absent or its hash differs; repeated
dry runs on the same input therefore keep returning `true` instead of
becoming idempotent. -/
theorem C9_dry_run_frame (env env2 : ExportEnv) (w : World) (b : List Nat)
    (hlock : w.fs.poetry_lock = some b) :
    (_poetry_export env false w).world.executed = w.executed ∧
    (_poetry_export env false w).world.fs.poetry_lock_hash_json =
      w.fs.poetry_lock_hash_json ∧
    ((_do_we_need_poetry_export (sha256_of_bytes b) w).val = Except.ok true →
        (_poetry_export env false w).val = Except.ok true ∧
        (_poetry_export env2 false ((_poetry_export env false w).world)).val =
          Except.ok true) := by
  rw [poetry_export_unfold env false w b hlock]
  cases hrv : (_do_we_need_poetry_export (sha256_of_bytes b) w).val with
  | error e =>
      rw [do_we_need_eq_exn (sha256_of_bytes b) w e hrv]
      refine ⟨rfl, rfl, ?_⟩
      intro hval
      simp at hval
  | ok v =>
      rw [do_we_need_eq_ok (sha256_of_bytes b) w v hrv]
      simp only [PyResult.andThen_ok]
      cases v with
      | false =>
          refine ⟨by simp, by simp, ?_⟩
          intro hval
          simp at hval
      | true =>
          rw [if_pos rfl, logic_dry env (sha256_of_bytes b) true w]
          simp only [PyResult.andThen_ok, PyResult.world_ok, PyResult.val_ok]
          refine ⟨by trivial, by trivial, fun _ => ⟨by trivial, ?_⟩⟩
          have hlock2 : ({ w with fs := { w.fs with requirements := none } } :
              World).fs.poetry_lock = some b := hlock
          rw [poetry_export_unfold env2 false _ b hlock2]
          have hval2 : (_do_we_need_poetry_export (sha256_of_bytes b)
              { w with fs := { w.fs with requirements := none } }).val =
              Except.ok true :=
            (do_we_need_val_congr (sha256_of_bytes b)
              { w with fs := { w.fs with requirements := none } } w rfl).trans hrv
          rw [do_we_need_eq_ok _ _ true hval2]
          simp [logic_dry]

/-- Witness for C9: two consecutive dry runs on `wLockOnly` both report the
export as needed. -/
theorem C9_witness :
    (_poetry_export envAllOk false wLockOnly).val = Except.ok true ∧
    (_poetry_export envAllOk false
        ((_poetry_export envAllOk false wLockOnly).world)).val =
      Except.ok true :=
  (C9_dry_run_frame envAllOk envAllOk wLockOnly [1, 2, 3] rfl).2.2 rfl

/-- C10: dry-run deletion asymmetry — `_poetry_export_main` unlinks the main
requirements file unconditionally, before checking `real_run`, so even a dry
run deletes that artifact; `_poetry_export_group` with `real_run = false` is
a complete no-op, because its unlink is guarded by `real_run`. -/
theorem C10_dry_run_unlink_asymmetry (env : ExportEnv) (wh : Bool) (w : World) :
    _poetry_export_main env wh false w =
      PyResult.ok () { w with fs := { w.fs with requirements := none } } ∧
    ∀ g p, _poetry_export_group env g p wh false w = PyResult.ok () w :=
  ⟨export_main_dry env wh w, fun g p => export_group_dry env g p wh w⟩

/-! ## C7: sensitivity to change, and the collision obstruction

The claim asserts that for ANY two distinct byte strings `b1 ≠ b2`, after
caching `b1` the check on `b2` reports stale.  The code compares SHA-256
digests, so the claim is equivalent to injectivity of SHA-256 on byte
strings — which is false by counting: there are more 33-byte messages
(`2 ^ 264`) than 256-bit digests (`2 ^ 256`).  No explicit colliding pair is
known, but the pigeonhole principle refutes the universal claim
nonconstructively; the amended claim assumes the two digests differ. -/

/-- Every field of a processed block is reduced modulo `2 ^ 32`. -/
theorem processBlock_bounded (st : H8) (blk : List Nat) :
    (processBlock st blk).bounded := by
  unfold processBlock H8.bounded
  refine ⟨?_, ?_, ?_, ?_, ?_, ?_, ?_, ?_⟩ <;>
    exact Nat.mod_lt _ (by norm_num [M32])

/-- Folding `processBlock` preserves 32-bit boundedness. -/
theorem foldl_processBlock_bounded (blocks : List (List Nat)) (st : H8)
    (hst : st.bounded) : (blocks.foldl processBlock st).bounded := by
  induction blocks generalizing st with
  | nil => exact hst
  | cons blk rest ih => exact ih _ (processBlock_bounded st blk)

/-- The final SHA-256 state is made of genuine 32-bit words. -/
theorem sha256state_bounded (msg : List Nat) : (sha256state msg).bounded :=
  foldl_processBlock_bounded _ _ (by norm_num [sha256H0, H8.bounded, M32])

/-- Arithmetic step for packing bounded words. -/
theorem pack_step_lt (n N a : Nat) (hn : n < N) (ha : a < M32) :
    n * M32 + a < N * M32 :=
  calc n * M32 + a < n * M32 + M32 := Nat.add_lt_add_left ha _
    _ = (n + 1) * M32 := by ring
    _ ≤ N * M32 := Nat.mul_le_mul_right M32 hn

/-- The packed SHA-256 digest is a 256-bit number. -/
theorem sha256nat_lt (msg : List Nat) : sha256nat msg < 2 ^ 256 := by
  obtain ⟨ha, hb, hc, hd, he, hf, hg, hh⟩ := sha256state_bounded msg
  have h1 := pack_step_lt _ _ _ ha hb
  have h2 := pack_step_lt _ _ _ h1 hc
  have h3 := pack_step_lt _ _ _ h2 hd
  have h4 := pack_step_lt _ _ _ h3 he
  have h5 := pack_step_lt _ _ _ h4 hf
  have h6 := pack_step_lt _ _ _ h5 hg
  have h7 := pack_step_lt _ _ _ h6 hh
  have hM : M32 * M32 * M32 * M32 * M32 * M32 * M32 * M32 = 2 ^ 256 := by
    norm_num [M32]
  unfold sha256nat
  calc ((((((((sha256state msg).a * M32 + (sha256state msg).b) * M32 +
        (sha256state msg).c) * M32 + (sha256state msg).d) * M32 +
        (sha256state msg).e) * M32 + (sha256state msg).f) * M32 +
        (sha256state msg).g) * M32 + (sha256state msg).h) <
      M32 * M32 * M32 * M32 * M32 * M32 * M32 * M32 := h7
    _ = 2 ^ 256 := hM

/-- Two byte strings whose 33-byte-message count exceeds the digest count
must collide somewhere: SHA-256 is not injective on valid byte strings. -/
theorem sha256_exists_collision :
    ∃ b1 b2 : List Nat, (∀ x ∈ b1, x < 256) ∧ (∀ x ∈ b2, x < 256) ∧
      b1 ≠ b2 ∧ sha256_of_bytes b1 = sha256_of_bytes b2 := by
  have hcard : Fintype.card (Fin (2 ^ 256)) < Fintype.card (Fin 33 → Fin 256) := by
    rw [Fintype.card_fun, Fintype.card_fin, Fintype.card_fin, Fintype.card_fin]
    have h256 : (256 : Nat) ^ 33 = 2 ^ 264 := by
      have h8 : (256 : Nat) = 2 ^ 8 := by norm_num
      rw [h8, ← pow_mul]
    rw [h256]
    exact Nat.pow_lt_pow_right (by norm_num) (by norm_num)
  obtain ⟨f, g, hne, heq⟩ := Fintype.exists_ne_map_eq_of_card_lt
    (fun f : Fin 33 → Fin 256 =>
      (⟨sha256nat (List.ofFn fun i => (f i).val),
        sha256nat_lt _⟩ : Fin (2 ^ 256))) hcard
  refine ⟨List.ofFn (fun i => (f i).val), List.ofFn (fun i => (g i).val),
    ?_, ?_, ?_, ?_⟩
  · intro x hx
    obtain ⟨i, hi⟩ := Set.mem_range.mp ((List.mem_ofFn _ x).mp hx)
    exact hi ▸ (f i).isLt
  · intro x hx
    obtain ⟨i, hi⟩ := Set.mem_range.mp ((List.mem_ofFn _ x).mp hx)
    exact hi ▸ (g i).isLt
  · intro hEq
    apply hne
    have h2 := List.ofFn_injective hEq
    funext i
    exact Fin.val_injective (congrFun h2 i)
  · have hnat : sha256nat (List.ofFn fun i => (f i).val) =
        sha256nat (List.ofFn fun i => (g i).val) := by
      have h2 := heq
      simp only [Fin.mk.injEq] at h2
      exact h2
    unfold sha256_of_bytes
    rw [hnat]

/-- C7, counterexample to the claim as stated: it is NOT the case that for
every pair of distinct byte strings `b1 ≠ b2`, after a successful refresh
cached `b1`'s hash, the check on `b2` reports stale — SHA-256 collides on
some pair of distinct byte strings (by counting), and on such a pair the
check returns `false`. -/
theorem C7_counterexample_collision_defeats_sensitivity :
    ¬ ∀ (b1 b2 : List Nat), (∀ x ∈ b1, x < 256) → (∀ x ∈ b2, x < 256) →
        b1 ≠ b2 → ∀ (w : World),
          w.fs.poetry_lock_hash_json =
            some (.jsonText (cacheRecordJson (sha256_of_bytes b1))) →
          _do_we_need_poetry_export (sha256_of_bytes b2) w =
            PyResult.ok true w := by
  intro hclaim
  obtain ⟨b1, b2, hv1, hv2, hne, hcol⟩ := sha256_exists_collision
  have hw : (wCachedFor (sha256_of_bytes b1)).fs.poetry_lock_hash_json =
      some (.jsonText (cacheRecordJson (sha256_of_bytes b1))) := rfl
  have hres := hclaim b1 b2 hv1 hv2 hne _ hw
  rw [do_we_need_of_record (sha256_of_bytes b1) (sha256_of_bytes b2) _ hw]
    at hres
  simp only [PyResult.ok.injEq, and_true, bne_iff_ne] at hres
  exact hres hcol.symm

/-- C7 as amended: for any two byte strings whose SHA-256 digests differ
(in particular, whenever no collision occurs), after a successful refresh
cached `b1`'s hash, the staleness check on `b2` returns `true`. -/
theorem C7_sensitivity_for_distinct_digests (b1 b2 : List Nat) (w : World)
    (hne : sha256_of_bytes b2 ≠ sha256_of_bytes b1)
    (hw : w.fs.poetry_lock_hash_json =
      some (.jsonText (cacheRecordJson (sha256_of_bytes b1)))) :
    _do_we_need_poetry_export (sha256_of_bytes b2) w = PyResult.ok true w := by
  rw [do_we_need_of_record (sha256_of_bytes b1) (sha256_of_bytes b2) w hw]
  simp [bne_iff_ne, hne]

/-- Witness for the amended C7 at the concrete pair `[]`, `[0]`. -/
theorem C7_witness :
    _do_we_need_poetry_export (sha256_of_bytes [0])
        (wCachedFor (sha256_of_bytes [])) =
      PyResult.ok true (wCachedFor (sha256_of_bytes [])) :=
  C7_sensitivity_for_distinct_digests [] [0] _ (by decide) rfl

end PyWfDeps
